import Mathlib

/-
Shallow embedding of src/utils.py (helper functions over the YouTube Data
API) and proofs about its four operations:

  get_channel_id_by_name  (ChannelResolver,    utils.py lines 3-34)
  get_channel_stats       (ChannelStatsFetcher, utils.py lines 36-74)
  get_video_ids           (PlaylistEnumerator, utils.py lines 76-120)
  get_video_details       (ItemDetailFetcher,  utils.py lines 122-173)

The remote API client (the `youtube` Resource object) is an external
collaborator; each operation is parameterised by a function standing for
the `execute()` outcome of the requests it issues, returning
`Except PyErr` responses. Fallible Python code is embedded as functions
into `Except PyErr`; Python `None` becomes `Option.none`.
-/

set_option autoImplicit false
set_option maxRecDepth 100000

namespace Utils

/-- PyErr models the Python exceptions that can cross the boundary of the
functions in src/utils.py: an HTTP/transport error raised by the API
client's execute(), a KeyError from an unguarded dictionary subscript,
a NameError from the lookup of an unbound global name, and a ValueError
(documented in the get_channel_stats docstring but, as proved below,
never actually raised by the code). -/
inductive PyErr where
  | httpError (msg : String)
  | keyError (key : String)
  | nameError (missing : String)
  | valueError (msg : String)
  deriving DecidableEq

/-- PyVal models the JSON scalar/array payloads stored in the nested
response dictionaries (titles, counts-as-strings, tag lists, ...). The
claims under study never inspect the payloads, only their presence. -/
inductive PyVal where
  | str (s : String)
  | strs (l : List String)
  | int (n : Int)
  deriving DecidableEq

/-- A search result item, modelling the parts of a `youtube#searchResult`
read by get_channel_id_by_name: `id.kind`, `id.channelId`,
`snippet.title` (utils.py lines 27-29). -/
structure SearchItem where
  kind : String
  channelId : String
  title : String
  deriving DecidableEq

/-- A search response. The source reads `search_response.get('items', [])`
(line 27), so the `items` key may be absent; absence is `none` and the
source substitutes the empty list. -/
structure SearchResponse where
  items : Option (List SearchItem)
  deriving DecidableEq

/-- The loop of utils.py lines 27-29: scan the result items in order and
return on the first whose `id.kind` equals the string literal
`youtube#channel`; fall through to `(None, None)` (line 34). -/
def scanItems : List SearchItem → Option String × Option String
  | [] => (none, none)
  | it :: rest =>
    if it.kind == "youtube#channel" then (some it.channelId, some it.title)
    else scanItems rest

/-- Embedding of get_channel_id_by_name (utils.py lines 3-34). `search`
stands for the outcome of `youtube.search().list(q=channel_name, ...)
.execute()` as a function of the query string.

The except clauses (lines 30-33) read `except HttpError as e`, but
utils.py imports only pandas: `HttpError` is an unbound global name.
Under Python semantics, when the try body raises, handler class
expressions are evaluated in order, and the lookup of the unbound name
`HttpError` itself raises NameError; handler matching is aborted at that
point, so the later `except Exception` clause is never consulted and the
NameError propagates to the caller. The error branch therefore yields
`PyErr.nameError "HttpError"`, whatever the original fault was. -/
def get_channel_id_by_name (search : String → Except PyErr SearchResponse)
    (channel_name : String) : Except PyErr (Option String × Option String) :=
  match search channel_name with
  | .ok resp => .ok (scanItems (resp.items.getD []))
  | .error _ => .error (.nameError "HttpError")

/-- A channel item, modelling the fields read (all by unguarded
subscripts) from one element of `response['items']` in utils.py lines
64-70: `snippet.title`, `statistics.subscriberCount`,
`statistics.viewCount`, `statistics.videoCount`,
`contentDetails.relatedPlaylists.uploads`. Counts are strings, as
transmitted by the remote service. -/
structure ChanItem where
  title : String
  subscriberCount : String
  viewCount : String
  videoCount : String
  uploads : String
  deriving DecidableEq

/-- A channels.list response. The source reads `response['items']`
unguarded (line 64); the claims under study only exercise responses in
which the key is present, so the field is a plain list. -/
structure ChanResponse where
  items : List ChanItem
  deriving DecidableEq

/-- The record built per channel item (utils.py lines 65-70), keys in
dict insertion order. -/
def chanRow (item : ChanItem) : List (String × PyVal) :=
  [("channelName", .str item.title),
   ("subscribers", .str item.subscriberCount),
   ("views", .str item.viewCount),
   ("totalVideos", .str item.videoCount),
   ("playlistId", .str item.uploads)]

/-- Embedding of get_channel_stats (utils.py lines 36-74). `chList`
stands for the outcome of `youtube.channels().list(part=..., id=s)
.execute()` as a function of the comma-joined id string (line 59). The
`Nat` in the result instruments the number of execute() calls issued,
which is always exactly one: the source contains no emptiness guard, so
even for `channel_ids = []` the request is issued with `id=""` and no
ValueError is raised (despite the docstring's Raises clause). -/
def get_channel_stats (chList : String → Except PyErr ChanResponse)
    (channel_ids : List String) : Except PyErr (Nat × List (List (String × PyVal))) :=
  match chList (String.intercalate "," channel_ids) with
  | .error e => .error e
  | .ok resp => .ok (1, resp.items.map chanRow)

/-- One page of a playlistItems.list response, modelling what
get_video_ids reads from it: the ordered `contentDetails.videoId` of
each element of `response['items']` (lines 102-103 and 115-116), and
`response.get('nextPageToken')` (lines 105 and 118). `items` is a plain
list because the source subscripts it unguarded and the claims under
study only exercise responses in which it is present. -/
structure Page where
  items : List String
  nextPageToken : Option String
  deriving DecidableEq

/-- The while-loop of utils.py lines 106-118: as long as the previous
response carried a continuation token, issue the next page request with
that token and append the page's item references in order. `fuel` bounds
the number of loop iterations the embedding is willing to unfold; it is
a modelling artifact (the source loop is unbounded) and `.ok none`
reports that the bound was reached before the service stopped returning
a token. -/
def gviAux (next : String → Option String → Except PyErr Page) (pl : String) :
    Nat → String → List String → Except PyErr (Option (List String))
  | 0, _, _ => .ok none
  | fuel+1, tok, acc =>
    match next pl (some tok) with
    | .error e => .error e
    | .ok p =>
      match p.nextPageToken with
      | none => .ok (some (acc ++ p.items))
      | some t => gviAux next pl fuel t (acc ++ p.items)

/-- Embedding of get_video_ids (utils.py lines 76-120). `next` stands
for the outcome of `youtube.playlistItems().list(playlistId=pl,
maxResults=50, pageToken=?).execute()` as a function of the playlist id
and the optional continuation token (`none` for the first request, lines
95-100). -/
def get_video_ids (next : String → Option String → Except PyErr Page)
    (pl : String) (fuel : Nat) : Except PyErr (Option (List String)) :=
  match next pl none with
  | .error e => .error e
  | .ok p =>
    match p.nextPageToken with
    | none => .ok (some p.items)
    | some t => gviAux next pl fuel t p.items

/-- Fuel-bounded chunking; `chunks50` instantiates the fuel with the
list length, which always suffices. -/
def chunks50F {α : Type} : Nat → List α → List (List α)
  | _, [] => []
  | 0, _ :: _ => []
  | fuel+1, a :: l => ((a :: l).take 50) :: chunks50F fuel ((a :: l).drop 50)

/-- Embedding of the batching loop header of get_video_details
(utils.py line 146): `for i in range(0, len(video_ids), 50)` together
with the slice `video_ids[i : i + 50]` (line 149) partitions the input
into the consecutive slices of positions 0..49, 50..99 and so on; the
last slice may be shorter, and an empty input yields no slices at
all. -/
def chunks50 {α : Type} (l : List α) : List (List α) :=
  chunks50F l.length l

/-- The `stats_to_keep` dictionary of utils.py lines 155-159, in dict
insertion order: group name paired with the attribute names drawn from
that group. -/
def stats_to_keep : List (String × List String) :=
  [("snippet", ["channelTitle", "title", "description", "tags", "publishedAt"]),
   ("statistics", ["viewCount", "likeCount", "favoriteCount", "commentCount"]),
   ("contentDetails", ["duration", "definition", "caption"])]

/-- One element of a videos.list `response['items']`, modelling what
get_video_details reads: the top-level `id` (line 161, unguarded, hence
an Option so that the KeyError case is representable) and the three
nested group dictionaries, each possibly absent (the `try` of lines
166-169 treats a missing group and a missing attribute alike). -/
structure Video where
  id : Option String
  snippet : Option (List (String × PyVal))
  statistics : Option (List (String × PyVal))
  contentDetails : Option (List (String × PyVal))
  deriving DecidableEq

/-- An output record: every key that the source inserts into
`video_info`, in insertion order, with `Option PyVal` values whose
`none` is the Python `None` absent marker of line 169. -/
abbrev Row := List (String × Option PyVal)

/-- The group selector `video[k]` of line 167, for the three group names
that occur in stats_to_keep. -/
def groupOf (video : Video) : String → Option (List (String × PyVal))
  | "snippet" => video.snippet
  | "statistics" => video.statistics
  | "contentDetails" => video.contentDetails
  | _ => none

/-- The record built for one response item by utils.py lines 161-169:
`video_info = {'video_id': video['id']}` followed by the nested loops
over stats_to_keep, each attribute `v` of group `k` set to
`video[k][v]` when both lookups succeed and to the absent marker `None`
when either raises KeyError. -/
def videoRecord (video : Video) (vid : String) : Row :=
  ("video_id", some (PyVal.str vid)) ::
    (stats_to_keep.map (fun gk =>
      gk.2.map (fun v => (v, (groupOf video gk.1).bind (fun g => List.lookup v g))))).flatten

/-- Processing of one response item (utils.py lines 161-171): the
top-level `video['id']` subscript is unguarded, so an item lacking `id`
raises KeyError before any record is produced; otherwise the full record
is built. -/
def buildVideoInfo (video : Video) : Except PyErr Row :=
  match video.id with
  | none => .error (.keyError "id")
  | some vid => .ok (videoRecord video vid)

/-- A videos.list response; the source reads `response['items']`
unguarded (line 154), so the key may be absent and its absence raises
KeyError. -/
structure VideoResp where
  items : Option (List Video)
  deriving DecidableEq

/-- The inner loop of utils.py lines 154-171 over one response: build
each item's record in order; a KeyError aborts the whole call, so no
partial result survives. -/
def buildAll : List Video → Except PyErr (List Row)
  | [] => .ok []
  | v :: vs =>
    match buildVideoInfo v with
    | .error e => .error e
    | .ok r =>
      match buildAll vs with
      | .error e => .error e
      | .ok rs => .ok (r :: rs)

/-- Records extracted from one batch response, including the unguarded
`response['items']` subscript of line 154. -/
def processResp (resp : VideoResp) : Except PyErr (List Row) :=
  match resp.items with
  | none => .error (.keyError "items")
  | some vids => buildAll vids

/-- The batch loop of get_video_details over the already-chunked id
list: for each chunk issue one request with the comma-joined ids (lines
147-151), extract the records, and accumulate across batches (line 171).
The `List String` component of the result instruments the request trace:
the `id` parameter of each execute() call, in issue order. -/
def gvdAux (oracle : String → Except PyErr VideoResp) :
    List (List String) → Except PyErr (List String × List Row)
  | [] => .ok ([], [])
  | c :: cs =>
    match oracle (String.intercalate "," c) with
    | .error e => .error e
    | .ok resp =>
      match processResp resp with
      | .error e => .error e
      | .ok recs =>
        match gvdAux oracle cs with
        | .error e => .error e
        | .ok (ts, rs) => .ok (String.intercalate "," c :: ts, recs ++ rs)

/-- Embedding of get_video_details (utils.py lines 122-173). `oracle`
stands for the outcome of `youtube.videos().list(part=..., id=s)
.execute()` as a function of the comma-joined id string. -/
def get_video_details (oracle : String → Except PyErr VideoResp)
    (video_ids : List String) : Except PyErr (List String × List Row) :=
  gvdAux oracle (chunks50 video_ids)

/-- Column derivation of `pandas.DataFrame(list_of_dicts)` (utils.py
lines 74 and 173): the columns are the union of the records' keys in
order of first appearance; in particular the DataFrame of an empty
record list has no columns at all. -/
def dfColumns (rows : List Row) : List String :=
  rows.foldl (fun cols r =>
    r.foldl (fun cols kv => if cols.contains kv.1 then cols else cols ++ [kv.1]) cols) []

/-- The fixed column set named by the specification for the
ItemDetailFetcher table, stated from the spec's words for comparison
with what the code produces. -/
def fixed_column_set : List String :=
  ["video_id", "channelTitle", "title", "description", "tags", "publishedAt",
   "viewCount", "likeCount", "favoriteCount", "commentCount", "duration",
   "definition", "caption"]

/-- Chain next pl req ps: starting from the request carrying token
`req`, the remote answers with exactly the pages `ps`, each page's
continuation token funding the next request, and the last page carrying
no token. This is the shape of remote behaviour under which the
specification discusses PlaylistEnumerator. -/
inductive Chain (next : String → Option String → Except PyErr Page) (pl : String) :
    Option String → List Page → Prop where
  | last (req : Option String) (p : Page) :
      next pl req = .ok p → p.nextPageToken = none → Chain next pl req [p]
  | cons (req : Option String) (p : Page) (t : String) (ps : List Page) :
      next pl req = .ok p → p.nextPageToken = some t →
      Chain next pl (some t) ps → Chain next pl req (p :: ps)

/-- FChain next pl f req n: starting from the request carrying token
`req`, the remote answers `n` pages each carrying a token, and then
faults with `f` on the following request. -/
inductive FChain (next : String → Option String → Except PyErr Page) (pl : String)
    (f : PyErr) : Option String → Nat → Prop where
  | here (req : Option String) : next pl req = .error f → FChain next pl f req 0
  | step (req : Option String) (p : Page) (t : String) (n : Nat) :
      next pl req = .ok p → p.nextPageToken = some t →
      FChain next pl f (some t) n → FChain next pl f req (n + 1)

/-- A concrete three-page remote behaviour (pages of 2, 2 and 1 item,
continuation tokens A then B then none), used to instantiate the
pagination theorems. -/
def next3 : String → Option String → Except PyErr Page :=
  fun _ req =>
    match req with
    | none => .ok ⟨["v1", "v2"], some "A"⟩
    | some "A" => .ok ⟨["v3", "v4"], some "B"⟩
    | some "B" => .ok ⟨["v5"], none⟩
    | some _ => .error (.httpError "unknown page token")

/-- The page list that next3 serves starting from the first request. -/
def pages3 : List Page :=
  [⟨["v1", "v2"], some "A"⟩, ⟨["v3", "v4"], some "B"⟩, ⟨["v5"], none⟩]

/-- A concrete remote behaviour that serves one page with a token and
then faults on the second request. -/
def nextFault : String → Option String → Except PyErr Page :=
  fun _ req =>
    match req with
    | none => .ok ⟨["v1"], some "A"⟩
    | some _ => .error (.httpError "backend error")

/-- A concrete videos.list behaviour that echoes its request: one
response item per requested identifier, for requests whose identifiers
are all the one-character id v. -/
def echoOracle : String → Except PyErr VideoResp :=
  fun req =>
    .ok ⟨some ((req.toList.filter (fun c => c == 'v')).map
      (fun _ => ⟨some "v", none, none, none⟩))⟩

/-- An input of 125 identifiers, the batching example of the
specification. -/
def ids125 : List String := List.replicate 125 "v"

/-- A concrete videos.list behaviour that faults exactly on the request
whose id parameter is the single identifier a, and answers every other
request with an empty item list. -/
def gvdFaultOracle : String → Except PyErr VideoResp :=
  fun req => if req = "a" then .error (.httpError "quota exceeded") else .ok ⟨some []⟩

/-- A concrete response item whose snippet lacks the tags attribute,
the missing-field example of the specification. -/
def videoNoTags : Video :=
  ⟨some "vid1",
   some [("channelTitle", .str "CT"), ("title", .str "T"),
         ("description", .str "D"), ("publishedAt", .str "P")],
   some [("viewCount", .str "10"), ("likeCount", .str "2"),
         ("favoriteCount", .str "0"), ("commentCount", .str "1")],
   some [("duration", .str "PT1M"), ("definition", .str "hd"),
         ("caption", .str "false")]⟩

/-- A concrete search behaviour whose top item is not channel-kind and
whose second item is; get_channel_id_by_name must pick the second. -/
def searchTwo : String → Except PyErr SearchResponse :=
  fun _ => .ok ⟨some [⟨"youtube#playlist", "cX", "tX"⟩, ⟨"youtube#channel", "c1", "t1"⟩]⟩

/-- A concrete search behaviour with zero result items. -/
def searchEmpty : String → Except PyErr SearchResponse :=
  fun _ => .ok ⟨some []⟩

/-- Chunking an empty list yields no chunks, whatever the fuel. -/
theorem chunks50F_nil {α : Type} : ∀ fuel : Nat, chunks50F fuel ([] : List α) = []
  | 0 => rfl
  | _ + 1 => rfl

/-- The fuel of chunks50F is irrelevant once it reaches the list
length. -/
theorem chunks50F_fuel {α : Type} :
    ∀ (f1 : Nat) (l : List α) (f2 : Nat), l.length ≤ f1 → l.length ≤ f2 →
      chunks50F f1 l = chunks50F f2 l := by
  intro f1
  induction f1 with
  | zero =>
    intro l f2 h1 _
    have : l = [] := List.eq_nil_of_length_eq_zero (Nat.le_zero.mp h1)
    subst this
    simp [chunks50F_nil]
  | succ f ih =>
    intro l f2 h1 h2
    cases l with
    | nil => simp [chunks50F_nil]
    | cons a l =>
      cases f2 with
      | zero => simp at h2
      | succ g =>
        simp only [chunks50F]
        congr 1
        apply ih
        · simp only [List.length_drop, List.length_cons]
          simp only [List.length_cons] at h1
          omega
        · simp only [List.length_drop, List.length_cons]
          simp only [List.length_cons] at h2
          omega

/-- The recurrence satisfied by chunks50 on a non-empty list: first the
slice of positions 0..49, then the chunks of the rest. -/
theorem chunks50_cons {α : Type} (a : α) (l : List α) :
    chunks50 (a :: l) = (a :: l).take 50 :: chunks50 ((a :: l).drop 50) := by
  show chunks50F (a :: l).length (a :: l) = _
  simp only [List.length_cons, chunks50F]
  congr 1
  apply chunks50F_fuel
  · simp only [List.length_drop, List.length_cons]; omega
  · simp only [List.length_drop, List.length_cons]; omega

/-- Chunk k of chunks50 is exactly the slice of positions
50k..50k+49 (both sides empty once 50k runs past the end). -/
theorem chunks50_getD {α : Type} :
    ∀ (k : Nat) (l : List α), (chunks50 l).getD k [] = (l.drop (50 * k)).take 50 := by
  intro k
  induction k with
  | zero =>
    intro l
    cases l with
    | nil => rfl
    | cons a l => simp [chunks50_cons]
  | succ k ih =>
    intro l
    cases l with
    | nil => rfl
    | cons a l =>
      rw [chunks50_cons]
      show (chunks50 ((a :: l).drop 50)).getD k [] = _
      rw [ih, List.drop_drop]
      congr 2
      ring

/-- The request trace of the batch loop is the comma-joined chunk list,
whenever the loop returns at all. -/
theorem gvdAux_fst (oracle : String → Except PyErr VideoResp) :
    ∀ cs : List (List String),
      (gvdAux oracle cs).map Prod.fst
        = (gvdAux oracle cs).map (fun _ => cs.map (String.intercalate ",")) := by
  intro cs
  induction cs with
  | nil => rfl
  | cons c cs ih =>
    simp only [gvdAux]
    cases ho : oracle (String.intercalate "," c) with
    | error e => simp [Except.map]
    | ok resp =>
      dsimp only
      cases hp : processResp resp with
      | error e => simp [Except.map]
      | ok recs =>
        dsimp only
        cases hrec : gvdAux oracle cs with
        | error e => simp [Except.map]
        | ok p =>
          rw [hrec] at ih
          obtain ⟨ts, rs⟩ := p
          simp only [Except.map, Except.ok.injEq] at ih
          simp [Except.map, ih]

/-- buildAll produces exactly one record per response item, whenever it
returns at all. -/
theorem buildAll_length :
    ∀ vs : List Video,
      (buildAll vs).map List.length = (buildAll vs).map (fun _ => vs.length) := by
  intro vs
  induction vs with
  | nil => rfl
  | cons v vs ih =>
    simp only [buildAll]
    cases hb : buildVideoInfo v with
    | error e => simp [Except.map]
    | ok r =>
      dsimp only
      cases hrec : buildAll vs with
      | error e => simp [Except.map]
      | ok rs =>
        rw [hrec] at ih
        simp only [Except.map, Except.ok.injEq] at ih
        simp [Except.map, ih]

/-- The scan of utils.py lines 27-29 returns the identifier and title of
the first channel-kind item, and the not-found pair when there is
none. -/
theorem scanItems_find :
    ∀ l : List SearchItem,
      scanItems l =
        match l.find? (fun it => it.kind == "youtube#channel") with
        | some it => (some it.channelId, some it.title)
        | none => (none, none) := by
  intro l
  induction l with
  | nil => rfl
  | cons it rest ih =>
    cases h : it.kind == "youtube#channel" with
    | true => simp [scanItems, List.find?, h]
    | false => simp [scanItems, List.find?, h, ih]

/-- The page-walk loop, started on a token-carrying chain of pages that
fits in the fuel, appends exactly the pages' item references in
order. -/
theorem gviAux_chain (next : String → Option String → Except PyErr Page) (pl : String) :
    ∀ (req : Option String) (ps : List Page), Chain next pl req ps →
      ∀ (t : String) (acc : List String) (fuel : Nat), req = some t → ps.length ≤ fuel →
        gviAux next pl fuel t acc = .ok (some (acc ++ (ps.map Page.items).flatten)) := by
  intro req ps h
  induction h with
  | last req p hnext htok =>
    intro t acc fuel hreq hfuel
    subst hreq
    cases fuel with
    | zero => simp at hfuel
    | succ m =>
      simp only [gviAux, hnext, htok]
      simp
  | cons req p t' ps' hnext htok _ ih =>
    intro t acc fuel hreq hfuel
    subst hreq
    cases fuel with
    | zero => simp at hfuel
    | succ m =>
      simp only [gviAux, hnext, htok]
      rw [ih t' (acc ++ p.items) m rfl (by simpa using Nat.lt_succ_iff.mp (Nat.lt_of_lt_of_le (Nat.lt_succ_self _) hfuel))]
      simp

/-- The page-walk loop, started on a token-carrying chain of pages
longer than the fuel, exhausts the fuel (the modelling artifact for the
source loop still running). -/
theorem gviAux_chain_exhaust (next : String → Option String → Except PyErr Page) (pl : String) :
    ∀ (req : Option String) (ps : List Page), Chain next pl req ps →
      ∀ (t : String) (acc : List String) (fuel : Nat), req = some t → fuel < ps.length →
        gviAux next pl fuel t acc = .ok none := by
  intro req ps h
  induction h with
  | last req p hnext htok =>
    intro t acc fuel hreq hfuel
    subst hreq
    cases fuel with
    | zero => rfl
    | succ m => simp at hfuel
  | cons req p t' ps' hnext htok _ ih =>
    intro t acc fuel hreq hfuel
    subst hreq
    cases fuel with
    | zero => rfl
    | succ m =>
      simp only [gviAux, hnext, htok]
      exact ih t' (acc ++ p.items) m rfl (by simp only [List.length_cons] at hfuel; omega)

/-- The page-walk loop, started on a token chain that faults after n
pages, surfaces exactly that fault once the fuel covers the n+1
requests. -/
theorem gviAux_fchain (next : String → Option String → Except PyErr Page) (pl : String)
    (f : PyErr) :
    ∀ (req : Option String) (n : Nat), FChain next pl f req n →
      ∀ (t : String) (acc : List String) (fuel : Nat), req = some t → n + 1 ≤ fuel →
        gviAux next pl fuel t acc = .error f := by
  intro req n h
  induction h with
  | here req hnext =>
    intro t acc fuel hreq hfuel
    subst hreq
    cases fuel with
    | zero => simp at hfuel
    | succ m => simp [gviAux, hnext]
  | step req p t' n hnext htok _ ih =>
    intro t acc fuel hreq hfuel
    subst hreq
    cases fuel with
    | zero => simp at hfuel
    | succ m =>
      simp only [gviAux, hnext, htok]
      exact ih t' (acc ++ p.items) m rfl (by omega)

/-- A fault on any batch request, all earlier batches having succeeded,
aborts the batch loop with exactly that fault. -/
theorem gvdAux_fault (oracle : String → Except PyErr VideoResp)
    (c : List String) (post : List (List String)) (f : PyErr)
    (hc : oracle (String.intercalate "," c) = .error f) :
    ∀ pre : List (List String),
      (∀ c' ∈ pre, ∃ resp recs, oracle (String.intercalate "," c') = .ok resp
        ∧ processResp resp = .ok recs) →
      gvdAux oracle (pre ++ c :: post) = .error f := by
  intro pre
  induction pre with
  | nil =>
    intro _
    simp [gvdAux, hc]
  | cons c' pre ih =>
    intro hpre
    obtain ⟨resp, recs, ho, hp⟩ := hpre c' (List.mem_cons_self c' pre)
    have hrec := ih (fun x hx => hpre x (List.mem_cons_of_mem c' hx))
    simp only [List.cons_append, gvdAux, ho, hp]
    rw [show List.append pre (c :: post) = pre ++ c :: post from rfl, hrec]

/-- PlaylistEnumerator on a page chain returns exactly the ordered
concatenation of the pages' items, once the fuel covers the loop
iterations. -/
theorem get_video_ids_chain (next : String → Option String → Except PyErr Page)
    (pl : String) (ps : List Page) (h : Chain next pl none ps) :
    ∀ fuel : Nat, ps.length ≤ fuel + 1 →
      get_video_ids next pl fuel = .ok (some ((ps.map Page.items).flatten)) := by
  intro fuel hfuel
  cases h with
  | last req p hnext htok =>
    simp [get_video_ids, hnext, htok]
  | cons req p t ps' hnext htok hchain =>
    simp only [get_video_ids, hnext, htok]
    rw [gviAux_chain next pl (some t) ps' hchain t p.items fuel rfl
      (by simp only [List.length_cons] at hfuel; omega)]
    simp

/-- C1: the claim says get_channel_stats called with an empty identifier
list fails with ValueError and issues no remote request; the code has no
such guard. As proved here, for the empty list the channels.list request
is issued anyway (request count 1, with the comma-join of the empty list
as filter) and the call returns a normal row list, raising nothing. -/
theorem get_channel_stats_empty_ids_issues_request :
    ∀ resp : ChanResponse,
      get_channel_stats (fun _ => .ok resp) [] = .ok (1, resp.items.map chanRow) :=
  fun _ => rfl

/-- C2 counterexample: for the empty input list, get_video_details
issues zero requests and returns the empty record list, but the column
set that pandas derives from an empty record list is empty, not the
fixed thirteen-column schema the claim states. -/
theorem get_video_details_empty_not_schema :
    get_video_details (fun _ => .ok ⟨some []⟩) [] = .ok ([], [])
    ∧ dfColumns [] ≠ fixed_column_set :=
  ⟨rfl, by decide⟩

/-- C2 amended: for the empty input list and every remote behaviour,
get_video_details issues zero requests (empty request trace) and
returns an empty table, whose derived column set is empty. -/
theorem get_video_details_empty_result :
    ∀ oracle : String → Except PyErr VideoResp,
      get_video_details oracle [] = .ok ([], []) ∧ dfColumns [] = [] :=
  fun _ => ⟨rfl, rfl⟩

/-- C3: the claim says get_channel_id_by_name never propagates an
exception and answers (None, None) on any remote fault; because
HttpError is an unbound name in utils.py, a faulting search call makes
the function raise NameError to its caller instead. Proved here at a
concrete faulting search. -/
theorem get_channel_id_by_name_fault_raises :
    get_channel_id_by_name (fun _ => .error (.httpError "network fault")) "somechannel"
      = .error (.nameError "HttpError")
    ∧ get_channel_id_by_name (fun _ => .error (.httpError "network fault")) "somechannel"
      ≠ .ok (none, none) :=
  ⟨rfl, fun h => nomatch h⟩

/-- C4: get_video_details partitions its input into consecutive batches
where batch k is the slice of positions 50k..50k+49, processes them in
ascending order (the request trace is the comma-join of the chunk list
in order), produces one output record per response item, and on 125
identifiers issues exactly 3 batch requests of sizes 50, 50, 25 and (for
a remote that echoes each request) 125 output records. -/
theorem get_video_details_batching :
    (∀ (l : List String) (k : Nat), (chunks50 l).getD k [] = (l.drop (50 * k)).take 50)
    ∧ (∀ (oracle : String → Except PyErr VideoResp) (ids : List String),
        (get_video_details oracle ids).map Prod.fst
          = (get_video_details oracle ids).map
              (fun _ => (chunks50 ids).map (String.intercalate ",")))
    ∧ (∀ resp : VideoResp,
        (processResp resp).map List.length
          = (processResp resp).map (fun _ => (resp.items.getD []).length))
    ∧ ((chunks50 ids125).map List.length = [50, 50, 25]
        ∧ (get_video_details echoOracle ids125).map (fun p => (p.1.length, p.2.length))
            = .ok (3, 125)) := by
  refine ⟨fun l k => chunks50_getD k l, fun oracle ids => gvdAux_fst oracle (chunks50 ids), ?_, by decide, rfl⟩
  intro resp
  cases hi : resp.items with
  | none => simp [processResp, hi, Except.map]
  | some vids =>
    simp only [processResp, hi, Option.getD_some]
    exact buildAll_length vids

/-- C5: for every remote behaviour serving a chain of pages that ends in
a token-free page, get_video_ids returns exactly the concatenation, in
request order, of the pages' item identifiers: order within and across
pages is preserved and nothing is deduplicated or sorted. -/
theorem get_video_ids_concatenation :
    ∀ (next : String → Option String → Except PyErr Page) (pl : String) (ps : List Page),
      Chain next pl none ps → ∀ fuel : Nat, ps.length ≤ fuel + 1 →
        get_video_ids next pl fuel = .ok (some ((ps.map Page.items).flatten)) :=
  fun next pl ps h fuel hfuel => get_video_ids_chain next pl ps h fuel hfuel

/-- C5 witness: on the concrete three-page chain (2, 2 and 1 items,
tokens A then B then none) the enumerator returns the five identifiers
in page order. -/
theorem get_video_ids_concatenation_witness :
    get_video_ids next3 "PLa" 2 = .ok (some ["v1", "v2", "v3", "v4", "v5"]) :=
  get_video_ids_concatenation next3 "PLa" pages3
    (Chain.cons none _ "A" _ rfl rfl
      (Chain.cons (some "A") _ "B" _ rfl rfl
        (Chain.last (some "B") _ rfl rfl))) 2 (by decide)

/-- C6: for every response item carrying an id, get_video_details builds
its record without raising, and every attribute name of the fixed
schema appears in the record with the value looked up in the
corresponding nested response group, the absent marker None standing in
when the group or the attribute is missing. -/
theorem get_video_details_schema_total :
    ∀ (video : Video) (vid : String), video.id = some vid →
      buildVideoInfo video = .ok (videoRecord video vid)
      ∧ ∀ gk, gk ∈ stats_to_keep → ∀ v, v ∈ gk.2 →
          (videoRecord video vid).lookup v
            = some ((groupOf video gk.1).bind (fun g => List.lookup v g)) := by
  intro video vid h
  refine ⟨by simp [buildVideoInfo, h], ?_⟩
  intro gk hgk v hv
  fin_cases hgk <;> fin_cases hv <;> rfl

/-- C6 witness: the concrete response item lacking the tags attribute
yields a record whose tags field is the absent marker and whose
channelTitle field carries the snippet value. -/
theorem get_video_details_schema_total_witness :
    buildVideoInfo videoNoTags = .ok (videoRecord videoNoTags "vid1")
    ∧ (videoRecord videoNoTags "vid1").lookup "tags" = some none
    ∧ (videoRecord videoNoTags "vid1").lookup "channelTitle"
        = some (some (.str "CT")) := by
  have h := get_video_details_schema_total videoNoTags "vid1" rfl
  exact ⟨h.1,
    (h.2 ("snippet", ["channelTitle", "title", "description", "tags", "publishedAt"])
      (by decide) "tags" (by decide)).trans (by decide),
    (h.2 ("snippet", ["channelTitle", "title", "description", "tags", "publishedAt"])
      (by decide) "channelTitle" (by decide)).trans (by decide)⟩

/-- C7: for every search call answered without a fault,
get_channel_id_by_name returns the identifier and title of the first
channel-kind result when one is present, and the not-found pair
(None, None) when the response has zero items or no channel-kind
item. -/
theorem get_channel_id_by_name_resolution :
    ∀ (search : String → Except PyErr SearchResponse) (name : String)
      (resp : SearchResponse), search name = .ok resp →
      (((resp.items.getD []).find? (fun it => it.kind == "youtube#channel") = none →
          get_channel_id_by_name search name = .ok (none, none))
       ∧ ∀ it : SearchItem,
          (resp.items.getD []).find? (fun it => it.kind == "youtube#channel") = some it →
            get_channel_id_by_name search name = .ok (some it.channelId, some it.title)) := by
  intro search name resp h
  constructor
  · intro hf
    simp [get_channel_id_by_name, h, scanItems_find, hf]
  · intro it hf
    simp [get_channel_id_by_name, h, scanItems_find, hf]

/-- C7 witness: a response whose top item is playlist-kind and whose
second is channel-kind resolves to the second item, and a zero-item
response resolves to the not-found pair. -/
theorem get_channel_id_by_name_resolution_witness :
    get_channel_id_by_name searchTwo "catvideos" = .ok (some "c1", some "t1")
    ∧ get_channel_id_by_name searchEmpty "dogvideos" = .ok (none, none) :=
  ⟨(get_channel_id_by_name_resolution searchTwo "catvideos" _ rfl).2
      ⟨"youtube#channel", "c1", "t1"⟩ (by decide),
   (get_channel_id_by_name_resolution searchEmpty "dogvideos" _ rfl).1 (by decide)⟩

/-- C8: a remote fault during any request of get_channel_stats,
get_video_ids or get_video_details propagates to the caller unmodified:
the single channels.list fault surfaces as is; a fault on any page
request of the page walk surfaces as is; and a fault on any batch
request, all earlier batches having succeeded, surfaces as is, with no
partial result. -/
theorem remote_fault_propagation :
    (∀ (chList : String → Except PyErr ChanResponse) (ids : List String) (f : PyErr),
        chList (String.intercalate "," ids) = .error f →
          get_channel_stats chList ids = .error f)
    ∧ (∀ (next : String → Option String → Except PyErr Page) (pl : String)
         (f : PyErr) (n fuel : Nat),
        FChain next pl f none n → n ≤ fuel → get_video_ids next pl fuel = .error f)
    ∧ (∀ (oracle : String → Except PyErr VideoResp) (ids : List String)
         (pre : List (List String)) (c : List String) (post : List (List String))
         (f : PyErr),
        chunks50 ids = pre ++ c :: post →
        (∀ c' ∈ pre, ∃ resp recs, oracle (String.intercalate "," c') = .ok resp
          ∧ processResp resp = .ok recs) →
        oracle (String.intercalate "," c) = .error f →
        get_video_details oracle ids = .error f) := by
  refine ⟨?_, ?_, ?_⟩
  · intro chList ids f h
    simp [get_channel_stats, h]
  · intro next pl f n fuel h hfuel
    cases h with
    | here req hnext => simp [get_video_ids, hnext]
    | step req p t n hnext htok hrest =>
      simp only [get_video_ids, hnext, htok]
      exact gviAux_fchain next pl f (some t) n hrest t p.items fuel rfl (by omega)
  · intro oracle ids pre c post f hchunks hpre hc
    show gvdAux oracle (chunks50 ids) = .error f
    rw [hchunks]
    exact gvdAux_fault oracle c post f hc pre hpre

/-- C8 witness: concrete faulting remotes for the three operations: the
single stats request faults; the second page request of the walk faults;
the second of two batch requests faults after the first batch
succeeded. -/
theorem remote_fault_propagation_witness :
    get_channel_stats (fun _ => .error (.httpError "backend error")) ["c1", "c2"]
      = .error (.httpError "backend error")
    ∧ get_video_ids nextFault "PLc" 3 = .error (.httpError "backend error")
    ∧ get_video_details gvdFaultOracle (List.replicate 51 "a")
      = .error (.httpError "quota exceeded") :=
  ⟨remote_fault_propagation.1 _ ["c1", "c2"] _ rfl,
   remote_fault_propagation.2.1 nextFault "PLc" _ 1 3
     (FChain.step none _ "A" 0 rfl rfl (FChain.here (some "A") rfl)) (by decide),
   remote_fault_propagation.2.2 gvdFaultOracle (List.replicate 51 "a")
     [List.replicate 50 "a"] ["a"] [] _ (by decide)
     (by
       intro c' hc'
       simp only [List.mem_singleton] at hc'
       subst hc'
       exact ⟨⟨some []⟩, [], rfl, rfl⟩)
     rfl⟩

/-- C9: under the precondition that the remote serves a chain of pages
whose last page carries no continuation token, the page walk of
get_video_ids returns once it has walked exactly those pages (any
iteration bound covering them yields the result), and with a smaller
bound the walk is still running, so the operation itself imposes no
maximum page count. -/
theorem get_video_ids_termination :
    ∀ (next : String → Option String → Except PyErr Page) (pl : String) (ps : List Page),
      Chain next pl none ps →
      ∀ fuel : Nat,
        (ps.length ≤ fuel + 1 → (get_video_ids next pl fuel).map Option.isSome = .ok true)
        ∧ (fuel + 1 < ps.length → get_video_ids next pl fuel = .ok none) := by
  intro next pl ps h fuel
  constructor
  · intro hfuel
    rw [get_video_ids_chain next pl ps h fuel hfuel]
    rfl
  · intro hfuel
    cases h with
    | last req p hnext htok => simp at hfuel
    | cons req p t ps' hnext htok hchain =>
      simp only [get_video_ids, hnext, htok]
      exact gviAux_chain_exhaust next pl (some t) ps' hchain t p.items fuel rfl
        (by simp only [List.length_cons] at hfuel; omega)

/-- C9 witness: on the concrete three-page chain, an iteration bound of
2 lets the walk return, while a bound of 1 is exhausted with the walk
still running. -/
theorem get_video_ids_termination_witness :
    (get_video_ids next3 "PLb" 2).map Option.isSome = .ok true
    ∧ get_video_ids next3 "PLb" 1 = .ok none :=
  ⟨(get_video_ids_termination next3 "PLb" pages3
      (Chain.cons none _ "A" _ rfl rfl
        (Chain.cons (some "A") _ "B" _ rfl rfl
          (Chain.last (some "B") _ rfl rfl))) 2).1 (by decide),
   (get_video_ids_termination next3 "PLb" pages3
      (Chain.cons none _ "A" _ rfl rfl
        (Chain.cons (some "A") _ "B" _ rfl rfl
          (Chain.last (some "B") _ rfl rfl))) 1).2 (by decide)⟩

/-- C10: only the twelve schema attributes are defaulted by the
try/except of get_video_details; the top-level id of a response item and
the items key of a batch response are read unguarded, so a response item
lacking id, or a response lacking items, raises KeyError instead of
producing a record. -/
theorem get_video_details_unguarded_keys :
    get_video_details (fun _ => .ok ⟨some [⟨none, none, none, none⟩]⟩) ["x"]
      = .error (.keyError "id")
    ∧ get_video_details (fun _ => .ok ⟨none⟩) ["x"] = .error (.keyError "items") :=
  ⟨rfl, rfl⟩

end Utils
